import Mathlib

/-!
Verification development for the py-test-framework repository.

The development shallowly embeds the test-execution engine
(`app/testrunner/executor.py`) and the curl-command conversion utility
(`app/utils/curl_parser.py`).  Python strings are `List Char`; JSON /
Python values are the inductive `Json` below (dicts are association
lists in insertion order); fallible code returns `Except`.  External
collaborators (the httpx transport, the `re` module, the `jsonschema`
validator, `json.loads` / `json.dumps` validity checks, base64 and
urljoin from the standard library) are threaded through an `Ext`
record of oracles, so every theorem quantifies over their behaviour.
-/

namespace PyTF

/-- Python character-list helpers: does `p` start the list `s`? -/
def startsWithList : List Char → List Char → Bool
  | [], _ => true
  | _ :: _, [] => false
  | a :: as, b :: bs => a == b && startsWithList as bs

/-- Python `in` for strings: `pat` occurs as a contiguous substring of `s`. -/
def isSubstrOf (pat s : List Char) : Bool :=
  (s.tails).any (fun t => startsWithList pat t)

/-- Python `str.split(c)`: split on every occurrence of `c`; keeps empty parts. -/
def splitOnChar (c : Char) : List Char → List (List Char)
  | [] => [[]]
  | x :: xs =>
    if x == c then [] :: splitOnChar c xs
    else
      match splitOnChar c xs with
      | [] => [[x]]
      | t :: ts => (x :: t) :: ts

/-- Python `str.split(c, 1)`: split at the first occurrence of `c`, if any. -/
def splitFirst (c : Char) : List Char → Option (List Char × List Char)
  | [] => none
  | x :: xs =>
    if x == c then some ([], xs)
    else (splitFirst c xs).map (fun p => (x :: p.1, p.2))

/-- ASCII lower-casing of a Python string (`str.lower`). -/
def lowerList (s : List Char) : List Char := s.map Char.toLower

/-- ASCII upper-casing of a Python string (`str.upper`). -/
def upperList (s : List Char) : List Char := s.map Char.toUpper

/-- Python `str.strip()`: trim whitespace from both ends. -/
def pyStripWs (s : List Char) : List Char :=
  ((s.dropWhile Char.isWhitespace).reverse.dropWhile Char.isWhitespace).reverse

/-- Python `str.strip("'\"")` as used on curl tokens: trim quote characters
from both ends. -/
def stripQuotes (s : List Char) : List Char :=
  let isQ : Char → Bool := fun c => c == '"' || c == '\''
  ((s.dropWhile isQ).reverse.dropWhile isQ).reverse

/-- Python `str.rstrip("/")` applied to the base URL in `TestExecutor.__init__`. -/
def rstripSlash (s : List Char) : List Char :=
  (s.reverse.dropWhile (fun c => c == '/')).reverse

/-- Python `str.split()` (no argument): whitespace-run splitting, no empties. -/
def wsWords (s : List Char) : List (List Char) :=
  let rec go : List Char → List Char → List (List Char)
    | [], cur => if cur.isEmpty then [] else [cur.reverse]
    | c :: cs, cur =>
      if c.isWhitespace then
        if cur.isEmpty then go cs [] else cur.reverse :: go cs []
      else go cs (c :: cur)
  go s []

/-- Join string pieces with a separator (Python `sep.join`). -/
def joinWith (sep : List Char) : List (List Char) → List Char
  | [] => []
  | [x] => x
  | x :: xs => x ++ sep ++ joinWith sep xs

/-- Embeds `' '.join(command.split())`: collapse whitespace runs to single spaces. -/
def normalizeWs (s : List Char) : List Char :=
  joinWith ([' ']) (wsWords s)

/-- Python `str.isdigit()` restricted to ASCII digits: nonempty, all digits. -/
def isDigits (s : List Char) : Bool :=
  !s.isEmpty && s.all Char.isDigit

/-- Embeds `int(key)` for a string of ASCII digits. -/
def digitsToNat (s : List Char) : Nat :=
  s.foldl (fun n c => n * 10 + (c.toNat - 48)) 0

/-- Python `str.replace(pat, sub)` for nonempty `pat` (the only use sites
pass nonempty patterns); fuel-indexed, consuming at least one character per
step. -/
def replaceAllAux (pat sub : List Char) : Nat → List Char → List Char
  | 0, s => s
  | _ + 1, [] => []
  | fuel + 1, c :: cs =>
    if startsWithList pat (c :: cs) && !pat.isEmpty then
      sub ++ replaceAllAux pat sub fuel ((c :: cs).drop pat.length)
    else c :: replaceAllAux pat sub fuel cs

/-- Python `str.replace(pat, sub)` (nonempty `pat`). -/
def replaceAll (s pat sub : List Char) : List Char :=
  replaceAllAux pat sub s.length s

/-- JSON values / the Python values produced by `json.loads`: `null` is
Python `None`, objects are dicts in insertion order. -/
inductive Json where
  | null : Json
  | bool (b : Bool) : Json
  | num (n : Int) : Json
  | str (s : List Char) : Json
  | arr (xs : List Json) : Json
  | obj (kvs : List (List Char × Json)) : Json

/-- Python dict lookup on an insertion-ordered association list. -/
def pyLookup (k : List Char) : List (List Char × Json) → Option Json
  | [] => none
  | (k', v) :: kvs => if k' == k then some v else pyLookup k kvs

/-- Python dict assignment `d[k] = v`: overwrite in place, else append. -/
def pyInsert (k : List Char) (v : Json) : List (List Char × Json) →
    List (List Char × Json)
  | [] => [(k, v)]
  | (k', v') :: kvs =>
    if k' == k then (k', v) :: kvs else (k', v') :: pyInsert k v kvs

/-- The same assignment for string-valued dicts (headers, query params). -/
def strInsert (k v : List Char) : List (List Char × List Char) →
    List (List Char × List Char)
  | [] => [(k, v)]
  | (k', v') :: kvs =>
    if k' == k then (k', v) :: kvs else (k', v') :: strInsert k v kvs

mutual
/-- Size of a value, used as a fuel bound below (every constructor and
every empty list counts at least one, so the bound strictly dominates the
recursion depth of the comparison on its left argument). -/
def jsize : Json → Nat
  | .null => 1
  | .bool _ => 1
  | .num _ => 1
  | .str _ => 1
  | .arr xs => jsizeList xs + 1
  | .obj kvs => jsizeObj kvs + 1
/-- Combined size of list elements. -/
def jsizeList : List Json → Nat
  | [] => 1
  | j :: js => jsize j + jsizeList js
/-- Combined size of dict values. -/
def jsizeObj : List (List Char × Json) → Nat
  | [] => 1
  | kv :: kvs => jsize kv.2 + jsizeObj kvs
end

mutual
/-- Fuel-indexed core of Python `==` on values decoded from JSON:
`True == 1`, `False == 0`, dict comparison is key-based (insertion order
irrelevant).  The fuel only serves structural termination; `jsize` of the
left operand always suffices, so `pyEq` below never exhausts it. -/
def pyEqFuel : Nat → Json → Json → Bool
  | 0, _, _ => false
  | _ + 1, .null, .null => true
  | _ + 1, .bool a, .bool b => a == b
  | _ + 1, .bool a, .num n => if a then n == 1 else n == 0
  | _ + 1, .num n, .bool a => if a then n == 1 else n == 0
  | _ + 1, .num a, .num b => a == b
  | _ + 1, .str a, .str b => a == b
  | f + 1, .arr a, .arr b => pyEqArrFuel f a b
  | f + 1, .obj a, .obj b => a.length == b.length && pyEqObjFuel f a b
  | _ + 1, _, _ => false
/-- Elementwise Python `==` on lists. -/
def pyEqArrFuel : Nat → List Json → List Json → Bool
  | _, [], [] => true
  | _, [], _ :: _ => false
  | _, _ :: _, [] => false
  | 0, _ :: _, _ :: _ => false
  | f + 1, a :: as, b :: bs => pyEqFuel f a b && pyEqArrFuel f as bs
/-- One-way dict inclusion (with the length check above this is Python
dict equality for duplicate-free dicts). -/
def pyEqObjFuel : Nat → List (List Char × Json) → List (List Char × Json) → Bool
  | _, [], _ => true
  | 0, _ :: _, _ => false
  | f + 1, (k, v) :: rest, b =>
    (match pyLookup k b with
     | some w => pyEqFuel f v w
     | none => false) && pyEqObjFuel f rest b
end

/-- Python `==` on values decoded from JSON. -/
def pyEq (a b : Json) : Bool := pyEqFuel (jsize a) a b

/-- Python truthiness of a decoded value (`bool(v)`). -/
def pyTruthy : Json → Bool
  | .null => false
  | .bool b => b
  | .num n => n != 0
  | .str s => !s.isEmpty
  | .arr xs => !xs.isEmpty
  | .obj kvs => !kvs.isEmpty

/-- Embeds `v is None` for a decoded value. -/
def isNull : Json → Bool
  | .null => true
  | _ => false

/-- Left brace character (written by code to keep it out of literals). -/
def lbrace : Char := Char.ofNat 123

/-- Right brace character. -/
def rbrace : Char := Char.ofNat 125

mutual
/-- Python `repr` of a decoded value (string escaping inside `repr` is
not modelled; no use site in this development depends on it). -/
def pyRepr : Json → List Char
  | .null => ('N' :: ("one".data))
  | .bool b => if b then ("True".data) else ("False".data)
  | .num n => (toString n).data
  | .str s => '\'' :: (s ++ ['\''])
  | .arr xs => '[' :: (joinWith (", ".data) (pyReprArr xs) ++ [']'])
  | .obj kvs => lbrace :: (joinWith (", ".data) (pyReprObj kvs) ++ [rbrace])
/-- Embeds `repr` of each list element. -/
def pyReprArr : List Json → List (List Char)
  | [] => []
  | j :: js => pyRepr j :: pyReprArr js
/-- Embeds `repr` of each dict entry. -/
def pyReprObj : List (List Char × Json) → List (List Char)
  | [] => []
  | (k, v) :: kvs =>
    ('\'' :: (k ++ ('\'' :: (": ".data ++ pyRepr v)))) :: pyReprObj kvs
end

/-- Python `str()` of a decoded value (as used inside f-strings). -/
def pyStr : Json → List Char
  | .str s => s
  | j => pyRepr j

/-- Lookup in a string-valued dict (headers, query parameters). -/
def lookupStr (k : List Char) : List (List Char × List Char) → Option (List Char)
  | [] => none
  | (k', v) :: kvs => if k' == k then some v else lookupStr k kvs

/-- Components returned by `urllib.parse.urlparse` (the `params` component,
split off a `;` in the last path segment by the standard library, is not
modelled; no use site reads it). -/
structure UrlParts where
  scheme : List Char
  netloc : List Char
  path : List Char
  query : List Char
  fragment : List Char

/-- Valid scheme spelling: a letter followed by letters, digits, `+`, `-`, `.`. -/
def schemeChars : List Char → Bool
  | [] => false
  | c :: cs => c.isAlpha && cs.all (fun x => x.isAlphanum || x == '+' || x == '-' || x == '.')

/-- Embeds `urllib.parse.urlparse` following CPython's `urlsplit`: strip
leading C0-control / space characters, remove tab, CR and LF, split the
scheme at the first `:` when validly spelled and the netloc after `//` up
to the next `/`, `?` or `#` — raising `ValueError("Invalid IPv6 URL")`
when the netloc contains `[` without `]` or `]` without `[` — then split
the fragment at the first `#` and the query at the first `?`; the
remainder is the path.  (The bracketed-host address validation added in
CPython 3.11.4 is a version-dependent hardening the repository does not
pin to and is not modelled; the `params` component split off the last
path segment is read by no caller.) -/
def urlparsePy (url : List Char) : Except (List Char) UrlParts :=
  let url := url.dropWhile (fun c => c.toNat ≤ 32)
  let url := url.filter (fun c => !(c == '\t' || c == '\r' || c == '\n'))
  let (scheme, rest) :=
    match splitFirst ':' url with
    | some (before, after) =>
      if schemeChars before then (lowerList before, after) else ([], url)
    | none => ([], url)
  let (netloc, rest) :=
    if startsWithList ("//".data) rest then
      let r := rest.drop 2
      let isDelim : Char → Bool := fun c => c == '/' || c == '?' || c == '#'
      (r.takeWhile (fun c => !isDelim c), r.dropWhile (fun c => !isDelim c))
    else ([], rest)
  if (netloc.contains '[' && !netloc.contains ']') ||
      (netloc.contains ']' && !netloc.contains '[') then
    .error ("Invalid IPv6 URL".data)
  else
    let (rest, fragment) :=
      match splitFirst '#' rest with
      | some (b, a) => (b, a)
      | none => (rest, [])
    let (path, query) :=
      match splitFirst '?' rest with
      | some (b, a) => (b, a)
      | none => (rest, [])
    .ok { scheme := scheme, netloc := netloc, path := path, query := query,
          fragment := fragment }

/-- Hexadecimal digit test for percent-decoding. -/
def isHexDigit (c : Char) : Bool :=
  c.isDigit || (97 ≤ c.toNat && c.toNat ≤ 102) || (65 ≤ c.toNat && c.toNat ≤ 70)

/-- Value of a hexadecimal digit. -/
def hexVal (c : Char) : Nat :=
  if c.isDigit then c.toNat - 48
  else if 97 ≤ c.toNat then c.toNat - 87
  else c.toNat - 55

/-- Embeds `urllib.parse.unquote_plus` on ASCII data: `+` becomes a space and
`%XX` pairs are decoded (multi-byte UTF-8 sequences are not recombined;
no use site in this development exercises them). -/
def unquotePlus : List Char → List Char
  | [] => []
  | '%' :: a :: b :: rest =>
    if isHexDigit a && isHexDigit b then
      Char.ofNat (16 * hexVal a + hexVal b) :: unquotePlus rest
    else '%' :: unquotePlus (a :: b :: rest)
  | '+' :: rest => ' ' :: unquotePlus rest
  | c :: rest => c :: unquotePlus rest

/-- Embeds `urllib.parse.parse_qsl` with default options: split on `&`, keep only
pairs with a `=` and a nonempty value, percent-decode names and values. -/
def parseQsl (q : List Char) : List (List Char × List Char) :=
  (splitOnChar '&' q).filterMap (fun nv =>
    if nv.isEmpty then none
    else
      match splitFirst '=' nv with
      | none => none
      | some (n, v) =>
        if v.isEmpty then none else some (unquotePlus n, unquotePlus v))

/-- Embeds `parse_qs` followed by the parser's `{k: v[0] ...}` flattening: per
key, the first value wins, keys in first-appearance order. -/
def parseQsFirst (q : List Char) : List (List Char × List Char) :=
  (parseQsl q).foldl
    (fun d kv => if (lookupStr kv.1 d).isSome then d else d ++ [kv]) []

/-- Tokenizer state of `_manual_parse_curl`: accumulated tokens, the token
being built, and the active quote character, if any. -/
structure TokState where
  tokens : List (List Char)
  current : List Char
  quote : Option Char

/-- One character step of the quote-aware tokenizer in `_manual_parse_curl`. -/
def tokStep (st : TokState) (c : Char) : TokState :=
  match st.quote with
  | none =>
    if c == '"' || c == '\'' then
      { st with current := st.current ++ [c], quote := some c }
    else if c.isWhitespace then
      if !st.current.isEmpty then
        { st with tokens := st.tokens ++ [st.current], current := [] }
      else st
    else { st with current := st.current ++ [c] }
  | some q =>
    if c == q then
      { tokens := st.tokens ++ [st.current ++ [c]], current := [], quote := none }
    else { st with current := st.current ++ [c] }

/-- The full tokenization pass of `_manual_parse_curl`. -/
def tokenizeCmd (s : List Char) : List (List Char) :=
  let st := s.foldl tokStep ⟨[], [], none⟩
  if !st.current.isEmpty then st.tokens ++ [st.current] else st.tokens

/-- The normalization pass: line continuations become spaces, remaining
backslashes are removed, whitespace runs collapse to single spaces. -/
def normalizeCmd (cmd : List Char) : List Char :=
  normalizeWs (replaceAll (replaceAll cmd ("\\\n".data) (" ".data)) ("\\".data) [])

/-- Tokens handed to the flag walk: the normalized command tokenized, with
the leading `curl` token removed. -/
def cmdTokens (cmd : List Char) : List (List Char) :=
  (tokenizeCmd (normalizeCmd cmd)).drop 1

/-- State of the token walk in `_manual_parse_curl`. -/
structure WalkState where
  method : List Char
  url : List Char
  headers : List (List Char × List Char)
  body : List Char

/-- Embeds `-X` / `--request`. -/
def isReqFlagTok (t : List Char) : Bool :=
  t == "-X".data || t == "--request".data

/-- Embeds `-H` / `--header`. -/
def isHeaderFlagTok (t : List Char) : Bool :=
  t == "-H".data || t == "--header".data

/-- Embeds `--data` / `--data-raw` / `--data-binary` / `-d`. -/
def isDataFlagTok (t : List Char) : Bool :=
  t == "--data".data || t == "--data-raw".data ||
  t == "--data-binary".data || t == "-d".data

/-- Embeds `--form` / `-F`. -/
def isFormFlagTok (t : List Char) : Bool :=
  t == "--form".data || t == "-F".data

/-- Does the (stripped) token start with a dash? -/
def startsWithDash : List Char → Bool
  | [] => false
  | c :: _ => c == '-'

/-- Header flag handling: split the argument at the first `:`, trim both
sides, store in the header dict; malformed headers (no colon) are skipped. -/
def applyHeaderTok (st : WalkState) (h : List Char) : WalkState :=
  match splitFirst ':' h with
  | some (k, v) => { st with headers := strInsert (pyStripWs k) (pyStripWs v) st.headers }
  | none => st

/-- Data flag handling: append to the accumulated body and upgrade the
method when it is (currently) `GET`. -/
def applyDataTok (st : WalkState) (d : List Char) : WalkState :=
  { st with
    body := st.body ++ d
    method := if st.method == "GET".data then "POST".data else st.method }

/-- Form flag handling: a `key=value` argument sets the body only when it
is still empty, and upgrades the method when it is `GET`. -/
def applyFormTok (st : WalkState) (f : List Char) : WalkState :=
  match splitFirst '=' f with
  | some (k, v) =>
    { st with
      body := if st.body.isEmpty then k ++ '=' :: v else st.body
      method := if st.method == "GET".data then "POST".data else st.method }
  | none => st

/-- The token walk of `_manual_parse_curl`: flags with arguments consume
the following token; the first non-flag token becomes the URL; scanning
continues to the end. -/
def walkTokens : List (List Char) → WalkState → WalkState
  | [], st => st
  | t :: rest, st =>
    let tok := stripQuotes t
    if isReqFlagTok tok then
      match rest with
      | [] => st
      | a :: rest' => walkTokens rest' { st with method := stripQuotes a }
    else if isHeaderFlagTok tok then
      match rest with
      | [] => st
      | a :: rest' => walkTokens rest' (applyHeaderTok st (stripQuotes a))
    else if isDataFlagTok tok then
      match rest with
      | [] => st
      | a :: rest' => walkTokens rest' (applyDataTok st (stripQuotes a))
    else if isFormFlagTok tok then
      match rest with
      | [] => st
      | a :: rest' => walkTokens rest' (applyFormTok st (stripQuotes a))
    else if tok == "--location".data then walkTokens rest st
    else if st.url.isEmpty && !startsWithDash tok then
      walkTokens rest { st with url := tok }
    else walkTokens rest st

/-- Embeds `_extract_path_variables`: `{name}` segments become placeholder
variables, purely numeric segments are recorded as `id_<index>` hints. -/
def extractPathVariables (path : List Char) : List (List Char × List Char) :=
  ((splitOnChar '/' path).enum).foldl
    (fun pv (i, part) =>
      if (match part with
          | c :: _ => c == lbrace
          | [] => false) && (match part.getLast? with
          | some c => c == rbrace
          | none => false) then
        strInsert (part.drop 1).dropLast
          (lbrace :: ("path_var_".data ++ (toString i).data ++ [rbrace])) pv
      else if isDigits part then
        strInsert ("id_".data ++ (toString i).data) part pv
      else pv) []

/-- Embeds `_determine_request_type`: decide `json` / `form` / `multipart` /
`none` from the `content-type` header, else from the body (`jp` is the
`json.loads`-succeeds oracle). -/
def determineRequestType (jp : List Char → Bool)
    (headers : List (List Char × List Char)) (data : List Char) : List Char :=
  let ct := lowerList ((lookupStr ("content-type".data) headers).getD [])
  if isSubstrOf ("application/json".data) ct then "json".data
  else if isSubstrOf ("application/x-www-form-urlencoded".data) ct then "form".data
  else if isSubstrOf ("multipart/form-data".data) ct then "multipart".data
  else if !data.isEmpty then (if jp data then "json".data else "form".data)
  else "none".data

/-- The `CurlRequest` schema: the parser's output record. -/
structure CurlRequest where
  method : List Char
  url : List Char
  headers : List (List Char × List Char)
  body : List Char
  query_params : List (List Char × List Char)
  path_variables : List (List Char × List Char)
  request_type : List Char
  raw_command : List Char

/-- The error text of the leading-token check. -/
def mustStartMsg : List Char :=
  "Invalid curl command: must start with ".data ++ '\'' :: ("curl".data) ++ ['\'']

/-- Initial state of the token walk: method `GET`, empty URL, headers
and body. -/
def initWalkState : WalkState :=
  { method := "GET".data, url := [], headers := [], body := [] }

/-- Embeds `_manual_parse_curl`: normalize, tokenize, check the leading `curl`
token (case-insensitively), walk the flags, require a URL, then decompose
the URL and assemble the record. -/
def manualParseCurl (jp : List Char → Bool) (cmd : List Char) :
    Except (List Char) CurlRequest :=
  let tokens := tokenizeCmd (normalizeCmd cmd)
  match tokens with
  | [] => .error mustStartMsg
  | t0 :: rest =>
    if lowerList t0 != "curl".data then .error mustStartMsg
    else
      let st := walkTokens rest initWalkState
      if st.url.isEmpty then .error ("No URL found in curl command".data)
      else
        match urlparsePy st.url with
        | .error e => .error e
        | .ok parsedUrl =>
          let qp := if !parsedUrl.query.isEmpty then parseQsFirst parsedUrl.query else []
          .ok
            { method := upperList st.method
              url := st.url
              headers := st.headers
              body := st.body
              query_params := qp
              path_variables := extractPathVariables parsedUrl.path
              request_type := determineRequestType jp st.headers st.body
              raw_command := cmd }

/-- Embeds `CurlParser.parse_curl_command`: reject empty / whitespace-only
commands, then run the manual parse, wrapping its errors. -/
def parseCurlCommand (jp : List Char → Bool) (cmd : List Char) :
    Except (List Char) CurlRequest :=
  if (pyStripWs cmd).isEmpty then .error ("Curl command cannot be empty".data)
  else
    match manualParseCurl jp cmd with
    | .ok r => .ok r
    | .error e => .error ("Invalid curl command: ".data ++ e)

/-- An assertion dict as consumed by the executor: `none` fields are
absent keys (`dict.get` then yields Python `None`; a present-but-`null`
value is `some .null`). -/
structure Assertion where
  type : Option Json
  path : Option Json
  matcher : Option Json
  expected : Option Json
  description : Option Json

/-- Embeds `assertion.get("type", "unknown")`. -/
def Assertion.getType (a : Assertion) : Json :=
  a.type.getD (.str ("unknown".data))

/-- Embeds `assertion.get("path")`. -/
def Assertion.getPath (a : Assertion) : Json := a.path.getD .null

/-- Embeds `assertion.get("matcher")`. -/
def Assertion.getMatcher (a : Assertion) : Json := a.matcher.getD .null

/-- Embeds `assertion.get("matcher", "equals")`. -/
def Assertion.getMatcherD (a : Assertion) : Json :=
  a.matcher.getD (.str ("equals".data))

/-- Embeds `assertion.get("expected")`. -/
def Assertion.getExpected (a : Assertion) : Json := a.expected.getD .null

/-- An assertion result dict: every branch of the engine fills all seven
keys (Python `None` values are `.null`). -/
structure AssertionResult where
  type : Json
  path : Json
  matcher : Json
  expected : Json
  actual : Json
  passed : Bool
  message : List Char

/-- An httpx response as seen by the executor: `jsonBody` is `some`
exactly when `response.json()` succeeds, `text` is the raw text fallback;
header names are lower-cased by httpx and looked up case-insensitively. -/
structure Response where
  status_code : Int
  headers : List (List Char × List Char)
  jsonBody : Option Json
  text : List Char
  url : List Char

/-- Embeds `_extract_response_body`: the parsed JSON body, else the raw text. -/
def extractResponseBody (r : Response) : Json :=
  match r.jsonBody with
  | some j => j
  | none => .str r.text

/-- The loop of `_extract_json_path`: walk the dot-separated keys; a dict
step uses `get` (missing key yields `None`), a list step requires an
all-digits key and raises `IndexError` out of range, any other
combination raises `ValueError`; a `None` value breaks out of the loop. -/
def extractLoop (pathStr : List Char) :
    List (List Char) → Json → Except (List Char) Json
  | [], current => .ok current
  | key :: rest, current =>
    match current with
    | .obj kvs =>
      let nxt := (pyLookup key kvs).getD .null
      if isNull nxt then .ok .null else extractLoop pathStr rest nxt
    | .arr xs =>
      if isDigits key then
        match xs.get? (digitsToNat key) with
        | some nxt =>
          if isNull nxt then .ok .null else extractLoop pathStr rest nxt
        | none => .error ("list index out of range".data)
      else .error ("Cannot extract path ".data ++ pathStr)
    | _ => .error ("Cannot extract path ".data ++ pathStr)

/-- Embeds `_extract_json_path`: falsy paths return the whole value; otherwise
the path is split on `.` and walked; every exception is re-raised as
`ValueError("Failed to extract path ...")` (a non-string path fails its
`split` attribute lookup the same way). -/
def extractJsonPath (data : Json) (path : Json) : Except (List Char) Json :=
  if !pyTruthy path then .ok data
  else
    match path with
    | .str s =>
      match extractLoop s (splitOnChar '.' s) data with
      | .ok v => .ok v
      | .error e =>
        .error ("Failed to extract path ".data ++ s ++ ": ".data ++ e)
    | other =>
      .error ("Failed to extract path ".data ++ pyStr other ++
        ": str attribute split missing".data)

/-- Outcome of `jsonschema.validate` (an external collaborator):
success, a `ValidationError`, or any other exception. -/
inductive SchemaOutcome where
  | ok : SchemaOutcome
  | invalid (msg : List Char) : SchemaOutcome
  | failure (msg : List Char) : SchemaOutcome

/-- External collaborators of the executor, threaded as oracles: the
httpx transport, `re.search`, `jsonschema.validate`, `json.loads`
parsability, `json.dumps`, base64, the oauth2 token exchange and
`urljoin`. -/
structure Ext where
  request : List Char → List Char → List (List Char × List Char) →
    List (List Char × List Char) → Option (List Char) →
    Except (List Char) Response
  reSearch : Json → List Char → Except (List Char) Bool
  schemaValidate : Json → Json → SchemaOutcome
  jsonParsable : List Char → Bool
  jsonDumps : List (List Char × Json) → List Char
  b64encode : List Char → List Char
  oauthToken : List Char → List Char → List Char → Option Json →
    Option (List Char)
  urljoin : List Char → List Char → List Char

/-- The `TypeError` text raised by `x in s` when `x` is not a string. -/
def typeErrInStr : List Char :=
  "in <string> requires string as left operand".data

/-- Embeds `_assert_status_code`. -/
def assertStatusCode (a : Assertion) (r : Response) : AssertionResult :=
  let expected := a.getExpected
  let actual : Json := .num r.status_code
  { type := .str ("status_code".data)
    path := .str ("status_code".data)
    matcher := .str ("equals".data)
    expected := expected
    actual := actual
    passed := pyEq actual expected
    message := "Expected status code ".data ++ pyStr expected ++
      ", got ".data ++ pyStr actual }

/-- Embeds `_assert_header`: no internal try/except, so a `TypeError` from the
`contains` matcher or an `re` failure propagates to the caller. -/
def assertHeader (ext : Ext) (a : Assertion) (r : Response) :
    Except (List Char) AssertionResult :=
  let path := a.getPath
  let expected := a.getExpected
  let matcher := a.getMatcherD
  if !pyTruthy path then
    .ok
      { type := .str ("header".data), path := path, matcher := matcher
        expected := expected, actual := .null, passed := false
        message := "Header path not specified".data }
  else
    match path with
    | .str p =>
      let actual : Option (List Char) := lookupStr (lowerList p) r.headers
      let actualJ : Json := match actual with
        | some s => .str s
        | none => .null
      let mk : Bool → AssertionResult := fun passed =>
        { type := .str ("header".data), path := path, matcher := matcher
          expected := expected, actual := actualJ, passed := passed
          message := "Header ".data ++ p ++ ": expected ".data ++
            pyStr expected ++ ", got ".data ++ pyStr actualJ }
      if pyEq matcher (.str ("equals".data)) then
        .ok (mk (pyEq actualJ expected))
      else if pyEq matcher (.str ("contains".data)) then
        match actual with
        | some s =>
          if !s.isEmpty then
            match expected with
            | .str e => .ok (mk (isSubstrOf e s))
            | _ => .error typeErrInStr
          else .ok (mk false)
        | none => .ok (mk false)
      else if pyEq matcher (.str ("regex".data)) then
        match actual with
        | some s =>
          if !s.isEmpty then
            match ext.reSearch expected s with
            | .ok b => .ok (mk b)
            | .error e => .error e
          else .ok (mk false)
        | none => .ok (mk false)
      else .ok (mk (pyEq actualJ expected))
    | _ => .error ("header name must be a string".data)

/-- The happy path of `_assert_body` (inside its try block). -/
def assertBodyCore (ext : Ext) (a : Assertion) (r : Response) :
    Except (List Char) AssertionResult := do
  let path := a.getPath
  let expected := a.getExpected
  let matcher := a.getMatcherD
  let body := extractResponseBody r
  let actual ← if pyTruthy path then extractJsonPath body path else .ok body
  let mk : Bool → AssertionResult := fun passed =>
    { type := .str ("body".data), path := path, matcher := matcher
      expected := expected, actual := actual, passed := passed
      message := "Body assertion: expected ".data ++ pyStr expected ++
        ", got ".data ++ pyStr actual }
  if pyEq matcher (.str ("equals".data)) then
    pure (mk (pyEq actual expected))
  else if pyEq matcher (.str ("contains".data)) then
    match expected with
    | .str e => pure (mk (isSubstrOf e (pyStr actual)))
    | _ => throw typeErrInStr
  else if pyEq matcher (.str ("regex".data)) then do
    let b ← ext.reSearch expected (pyStr actual)
    pure (mk b)
  else pure (mk (pyEq actual expected))

/-- Embeds `_assert_body`: any exception in the body is downgraded locally. -/
def assertBody (ext : Ext) (a : Assertion) (r : Response) : AssertionResult :=
  match assertBodyCore ext a r with
  | .ok res => res
  | .error e =>
    { type := .str ("body".data), path := a.getPath, matcher := a.getMatcherD
      expected := a.getExpected, actual := .null, passed := false
      message := "Body assertion failed: ".data ++ e }

/-- Embeds `_assert_schema`: validate the parsed body against the schema in
`expected` through the external validator. -/
def assertSchema (ext : Ext) (a : Assertion) (r : Response) : AssertionResult :=
  let schema := a.getExpected
  let body := extractResponseBody r
  match ext.schemaValidate body schema with
  | .ok =>
    { type := .str ("schema".data), path := .null
      matcher := .str ("schema".data)
      expected := .str ("Valid JSON schema".data), actual := .str ("Valid".data)
      passed := true, message := "Response body matches JSON schema".data }
  | .invalid e =>
    { type := .str ("schema".data), path := .null
      matcher := .str ("schema".data)
      expected := .str ("Valid JSON schema".data)
      actual := .str ("Invalid: ".data ++ e), passed := false
      message := "Response body does not match JSON schema: ".data ++ e }
  | .failure e =>
    { type := .str ("schema".data), path := .null
      matcher := .str ("schema".data)
      expected := .str ("Valid JSON schema".data), actual := .null
      passed := false, message := "Schema validation failed: ".data ++ e }

/-- Python `str(x)[:100] + "..."` truncation used in result records. -/
def truncate100 (s : List Char) : List Char :=
  if s.length > 100 then s.take 100 ++ "...".data else s

/-- The happy path of `_assert_contains`. -/
def assertContainsCore (a : Assertion) (r : Response) :
    Except (List Char) AssertionResult := do
  let expected := a.getExpected
  let path := a.getPath
  let body := extractResponseBody r
  let actual ← if pyTruthy path then extractJsonPath body path else .ok body
  let passed ←
    match expected with
    | .str e => Except.ok (isSubstrOf e (pyStr actual))
    | _ => Except.error typeErrInStr
  pure
    { type := .str ("contains".data), path := path
      matcher := .str ("contains".data), expected := expected
      actual := .str (truncate100 (pyStr actual)), passed := passed
      message := "Expected to find ".data ++ '\'' ::
        (pyStr expected ++ '\'' :: " in response".data) }

/-- Embeds `_assert_contains` with its local exception downgrade. -/
def assertContains (a : Assertion) (r : Response) : AssertionResult :=
  match assertContainsCore a r with
  | .ok res => res
  | .error e =>
    { type := .str ("contains".data), path := a.getPath
      matcher := .str ("contains".data), expected := a.getExpected
      actual := .null, passed := false
      message := "Contains assertion failed: ".data ++ e }

/-- The happy path of `_assert_equals`. -/
def assertEqualsCore (a : Assertion) (r : Response) :
    Except (List Char) AssertionResult := do
  let expected := a.getExpected
  let path := a.getPath
  let body := extractResponseBody r
  let actual ← if pyTruthy path then extractJsonPath body path else .ok body
  pure
    { type := .str ("equals".data), path := path
      matcher := .str ("equals".data), expected := expected
      actual := actual, passed := pyEq actual expected
      message := "Expected ".data ++ pyStr expected ++ ", got ".data ++
        pyStr actual }

/-- Embeds `_assert_equals` with its local exception downgrade: a strict compare
of the value at the resolved path, no array-order tolerance of any kind. -/
def assertEquals (a : Assertion) (r : Response) : AssertionResult :=
  match assertEqualsCore a r with
  | .ok res => res
  | .error e =>
    { type := .str ("equals".data), path := a.getPath
      matcher := .str ("equals".data), expected := a.getExpected
      actual := .null, passed := false
      message := "Equals assertion failed: ".data ++ e }

/-- The happy path of `_assert_regex`. -/
def assertRegexCore (ext : Ext) (a : Assertion) (r : Response) :
    Except (List Char) AssertionResult := do
  let pat := a.getExpected
  let path := a.getPath
  let body := extractResponseBody r
  let actual ← if pyTruthy path then extractJsonPath body path else .ok body
  let b ← ext.reSearch pat (pyStr actual)
  pure
    { type := .str ("regex".data), path := path
      matcher := .str ("regex".data), expected := pat
      actual := .str (truncate100 (pyStr actual)), passed := b
      message := "Expected response to match regex pattern: ".data ++
        pyStr pat }

/-- Embeds `_assert_regex` with its local exception downgrade. -/
def assertRegex (ext : Ext) (a : Assertion) (r : Response) : AssertionResult :=
  match assertRegexCore ext a r with
  | .ok res => res
  | .error e =>
    { type := .str ("regex".data), path := a.getPath
      matcher := .str ("regex".data), expected := a.getExpected
      actual := .null, passed := false
      message := "Regex assertion failed: ".data ++ e }

/-- Embeds `_run_single_assertion`: string dispatch on `assertion["type"]` over
exactly the seven branches of the source; every other type (including
`exists` and `response_time`) falls through to the unknown-type record. -/
def runSingleAssertion (ext : Ext) (a : Assertion) (r : Response) :
    Except (List Char) AssertionResult :=
  let t := a.getType
  if pyEq t (.str ("status_code".data)) then .ok (assertStatusCode a r)
  else if pyEq t (.str ("header".data)) then assertHeader ext a r
  else if pyEq t (.str ("body".data)) then .ok (assertBody ext a r)
  else if pyEq t (.str ("schema".data)) then .ok (assertSchema ext a r)
  else if pyEq t (.str ("contains".data)) then .ok (assertContains a r)
  else if pyEq t (.str ("equals".data)) then .ok (assertEquals a r)
  else if pyEq t (.str ("regex".data)) then .ok (assertRegex ext a r)
  else
    .ok
      { type := t, path := a.getPath, matcher := a.getMatcher
        expected := a.getExpected, actual := .null, passed := false
        message := "Unknown assertion type: ".data ++ pyStr t }

/-- The record appended by `_run_assertions` when evaluating one
assertion raises. -/
def assertionErrorRecord (a : Assertion) (e : List Char) : AssertionResult :=
  { type := a.getType, path := a.getPath, matcher := a.getMatcher
    expected := a.getExpected, actual := .null, passed := false
    message := "Assertion execution failed: ".data ++ e }

/-- Embeds `_run_assertions`: evaluate each assertion in order, converting any
raised exception into a failed result; never raises itself. -/
def runAssertions (ext : Ext) (assertions : List Assertion) (r : Response) :
    List AssertionResult :=
  assertions.map (fun a =>
    match runSingleAssertion ext a r with
    | .ok res => res
    | .error e => assertionErrorRecord a e)

/-- The auth-config dict as constrained by the `AuthConfigBase` schema:
the type tag and the credential fields are strings when present; `extra`
is an arbitrary JSON object of additional oauth2 token-request fields. -/
structure AuthConfig where
  type : Option (List Char)
  token : Option (List Char)
  key_name : Option (List Char)
  key_value : Option (List Char)
  username : Option (List Char)
  password : Option (List Char)
  client_id : Option (List Char)
  client_secret : Option (List Char)
  token_url : Option (List Char)
  extra : Option Json

/-- Truthiness of an optional string (`None` and `""` are falsy). -/
def optTruthy : Option (List Char) → Bool
  | some s => !s.isEmpty
  | none => false

/-- The executor's own state: the base URL (`rstrip("/")` applied at
construction) and the optional auth config. -/
structure TestExecutor where
  base_url : List Char
  auth_config : Option AuthConfig

/-- Embeds `TestExecutor.__init__` (the timeout and client handle carry no
assertion-relevant state). -/
def TestExecutor.init (burl : List Char) (cfg : Option AuthConfig) :
    TestExecutor :=
  ⟨rstripSlash burl, cfg⟩

/-- Embeds `_apply_bearer_auth`. -/
def applyBearerAuth (cfg : AuthConfig)
    (headers params : List (List Char × List Char)) :
    List (List Char × List Char) × List (List Char × List Char) :=
  if optTruthy cfg.token then
    (strInsert ("Authorization".data) ("Bearer ".data ++ cfg.token.getD []) headers,
      params)
  else (headers, params)

/-- Header-style API key names recognized by `_apply_api_key_auth`. -/
def headerKeyNames : List (List Char) :=
  ["x-api-key".data, "api-key".data, "authorization".data, "x-auth-token".data]

/-- Embeds `_apply_api_key_auth`: known header names get the key as a header,
anything else as a query parameter. -/
def applyApiKeyAuth (cfg : AuthConfig)
    (headers params : List (List Char × List Char)) :
    List (List Char × List Char) × List (List Char × List Char) :=
  if optTruthy cfg.key_name && optTruthy cfg.key_value then
    let kn := cfg.key_name.getD []
    let kv := cfg.key_value.getD []
    if (headerKeyNames.map lowerList).contains (lowerList kn) then
      (strInsert kn kv headers, params)
    else (headers, strInsert kn kv params)
  else (headers, params)

/-- Embeds `_apply_basic_auth`. -/
def applyBasicAuth (ext : Ext) (cfg : AuthConfig)
    (headers params : List (List Char × List Char)) :
    List (List Char × List Char) × List (List Char × List Char) :=
  if optTruthy cfg.username && optTruthy cfg.password then
    let creds := cfg.username.getD [] ++ ':' :: cfg.password.getD []
    (strInsert ("Authorization".data) ("Basic ".data ++ ext.b64encode creds)
      headers, params)
  else (headers, params)

/-- Embeds `_get_oauth2_token`: requires client id, secret and token URL, then
performs the client-credentials POST (the HTTP exchange, its status check
and `access_token` extraction, and the swallow-all exception handler live
in the oracle, which returns `none` on any failure). -/
def getOauth2Token (ext : Ext) (cfg : AuthConfig) : Option (List Char) :=
  if optTruthy cfg.client_id && optTruthy cfg.client_secret &&
      optTruthy cfg.token_url then
    ext.oauthToken (cfg.client_id.getD []) (cfg.client_secret.getD [])
      (cfg.token_url.getD []) cfg.extra
  else none

/-- Embeds `_apply_oauth2_auth`: use the embedded token when truthy, else fetch
one; apply as a bearer header when a truthy token results. -/
def applyOauth2Auth (ext : Ext) (cfg : AuthConfig)
    (headers params : List (List Char × List Char)) :
    List (List Char × List Char) × List (List Char × List Char) :=
  let token : Option (List Char) :=
    if optTruthy cfg.token then cfg.token else getOauth2Token ext cfg
  if optTruthy token then
    (strInsert ("Authorization".data) ("Bearer ".data ++ token.getD []) headers,
      params)
  else (headers, params)

/-- Embeds `_apply_authentication`: dispatch on the lower-cased type tag; a
missing config (the Python falsy check also covers the empty dict, whose
tag then reads as `""` and lands in the same unchanged branch) or an
unrecognized tag leaves both maps unchanged. -/
def applyAuthentication (ext : Ext) (ex : TestExecutor)
    (headers params : List (List Char × List Char)) :
    List (List Char × List Char) × List (List Char × List Char) :=
  match ex.auth_config with
  | none => (headers, params)
  | some cfg =>
    let authType := lowerList (cfg.type.getD [])
    if authType == "bearer".data then applyBearerAuth cfg headers params
    else if authType == "api_key".data then applyApiKeyAuth cfg headers params
    else if authType == "basic".data then applyBasicAuth ext cfg headers params
    else if authType == "oauth2".data then applyOauth2Auth ext cfg headers params
    else (headers, params)

/-- The `TestSpecBase` schema. -/
structure TestSpecBase where
  name : List Char
  method : List Char
  path : List Char
  headers : Option (List (List Char × List Char))
  query_params : Option (List (List Char × List Char))
  path_variables : Option (List (List Char × List Char))
  body : Option Json
  assertions : List Assertion

/-- Embeds `_build_url`: substitute `{var}` placeholders into the path, then
join onto the base URL (urljoin is the standard library's). -/
def buildUrl (ext : Ext) (ex : TestExecutor) (spec : TestSpecBase) :
    List Char :=
  if !spec.path.isEmpty then
    let path := (spec.path_variables.getD []).foldl
      (fun p kv => replaceAll p (lbrace :: (kv.1 ++ [rbrace])) kv.2) spec.path
    ext.urljoin ex.base_url path
  else ex.base_url

/-- Embeds `_prepare_body`: falsy bodies send nothing, strings pass unchanged,
dicts are JSON-serialized, anything else is stringified. -/
def prepareBody (ext : Ext) (spec : TestSpecBase) : Option (List Char) :=
  match spec.body with
  | none => none
  | some b =>
    if !pyTruthy b then none
    else
      match b with
      | .str s => some s
      | .obj kvs => some (ext.jsonDumps kvs)
      | other => some (pyStr other)

/-- Embeds `_make_request`: infer a JSON content type for string bodies that
parse as JSON when none is set, then perform the call (transport errors
surface as `Except.error`). -/
def makeRequest (ext : Ext) (method url : List Char)
    (headers params : List (List Char × List Char))
    (body : Option (List Char)) : Except (List Char) Response :=
  let headers :=
    if (match body with
        | some s => !s.isEmpty
        | none => false) &&
        !optTruthy (lookupStr ("content-type".data) headers) &&
        ext.jsonParsable (body.getD []) then
      strInsert ("content-type".data) ("application/json".data) headers
    else headers
  ext.request method url headers params body

/-- The request phase of `execute_test`'s try block: build the URL,
apply authentication, prepare the body, perform the call.  In this
embedding every other step of the phase is total, so the transport is
the only exception source. -/
def attemptRequest (ext : Ext) (ex : TestExecutor) (spec : TestSpecBase) :
    Except (List Char) Response :=
  let url := buildUrl ext ex spec
  let headers0 := spec.headers.getD []
  let params0 := spec.query_params.getD []
  let hp := applyAuthentication ext ex headers0 params0
  let body := prepareBody ext spec
  makeRequest ext spec.method url hp.1 hp.2 body

/-- The `response_data` record assembled on a successful call. -/
structure ResponseData where
  status_code : Int
  headers : List (List Char × List Char)
  body : Json
  url : List Char
  method : List Char

/-- The `TestResultBase` schema. -/
structure TestResultBase where
  test_name : List Char
  status : List Char
  error_message : Option (List Char)
  response_data : Option ResponseData
  assertion_results : List AssertionResult

/-- Embeds `execute_test`: on a transport error the result is `failed` with the
error text and no assertion results; on a response, assertions run and
the status is `passed` exactly when they all passed. -/
def executeTest (ext : Ext) (ex : TestExecutor) (spec : TestSpecBase) :
    TestResultBase :=
  match attemptRequest ext ex spec with
  | .error e =>
    { test_name := spec.name, status := "failed".data
      error_message := some e, response_data := none
      assertion_results := [] }
  | .ok resp =>
    let ars := runAssertions ext spec.assertions resp
    { test_name := spec.name
      status := if ars.all (fun ar => ar.passed) then "passed".data else "failed".data
      error_message := none
      response_data := some
        { status_code := resp.status_code, headers := resp.headers
          body := extractResponseBody resp, url := resp.url
          method := spec.method }
      assertion_results := ars }

/-- The default status-code assertion seeded by `curl_to_test_spec`. -/
def statusCodeSeed : Assertion :=
  { type := some (.str ("status_code".data)), path := none, matcher := none
    expected := some (.num 200)
    description := some (.str ("Check if response status is successful".data)) }

/-- The content-type header assertion seeded when the parsed request
carried a content type. -/
def headerSeedCT (ct : List Char) : Assertion :=
  { type := some (.str ("header".data))
    path := some (.str ("content-type".data))
    matcher := some (.str ("contains".data))
    expected := some (.str ct)
    description := some (.str ("Check content type header matches request".data)) }

/-- The default response-time assertion seeded by `curl_to_test_spec`. -/
def responseTimeSeed : Assertion :=
  { type := some (.str ("response_time".data)), path := none
    matcher := some (.str ("less_than".data))
    expected := some (.num 5000)
    description := some (.str ("Check response time is acceptable".data)) }

/-- Embeds `CurlParser.curl_to_test_spec`: parse the command, seed the default
assertions (status code, optional content type, response time), append
any custom assertions, and assemble the test spec. -/
def curlToTestSpec (jp : List Char → Bool) (cmd : List Char)
    (customAssertions : Option (List Assertion)) :
    Except (List Char) TestSpecBase :=
  match parseCurlCommand jp cmd with
  | .error e => .error e
  | .ok cr =>
    let ct1 := lookupStr ("content-type".data) cr.headers
    let ct2 := lookupStr ("Content-Type".data) cr.headers
    let contentType : Option (List Char) := if optTruthy ct1 then ct1 else ct2
    let assertions :=
      [statusCodeSeed] ++
      (if optTruthy contentType then [headerSeedCT (contentType.getD [])] else []) ++
      [responseTimeSeed] ++ customAssertions.getD []
    match urlparsePy cr.url with
    | .error e => .error e
    | .ok pu =>
      .ok
        { name := "Test from curl: ".data ++ cr.method ++ ' ' :: cr.url
          method := cr.method
          path := pu.path
          headers := some cr.headers
          query_params := some cr.query_params
          path_variables := some cr.path_variables
          body := some (.str cr.body)
          assertions := assertions }

/-- Concrete oracle instance used to evaluate closed scenarios: the
transport reports a connection error, regex searches never match,
schemas validate, nothing parses as JSON. -/
def extTriv : Ext where
  request := fun _ _ _ _ _ => .error ("connection error".data)
  reSearch := fun _ _ => .ok false
  schemaValidate := fun _ _ => .ok
  jsonParsable := fun _ => false
  jsonDumps := fun _ => []
  b64encode := fun s => s
  oauthToken := fun _ _ _ _ => none
  urljoin := fun a b => a ++ b

/-- Scenario D response: status 200 with body user.email null. -/
def respScenarioD : Response :=
  { status_code := 200, headers := []
    jsonBody := some (.obj [("user".data, .obj [("email".data, .null)])])
    text := [], url := "http://api.test/users".data }

/-- Oracle instance whose transport returns scenario D's response. -/
def extOkResp : Ext :=
  { extTriv with request := fun _ _ _ _ _ => .ok respScenarioD }

/-- Scenario D assertion: exists at path user.email. -/
def existsAssertionD : Assertion :=
  { type := some (.str ("exists".data)), path := some (.str ("user.email".data))
    matcher := none, expected := none, description := none }

/-- Scenario E body: items is the array of id 7 then id 5 objects. -/
def itemsBody : Json :=
  .obj [("items".data,
    .arr [.obj [("id".data, .num 7)], .obj [("id".data, .num 5)]])]

/-- Body with a three-element array under key a. -/
def aBody : Json :=
  .obj [("a".data, .arr [.num 1, .num 2, .num 3])]

/-- Scenario E response carrying `itemsBody`. -/
def respScenarioE : Response :=
  { status_code := 200, headers := [], jsonBody := some itemsBody
    text := [], url := "http://api.test/items".data }

/-- Scenario E assertion: equals 5 at path items, index 0, id. -/
def eqAssertionE : Assertion :=
  { type := some (.str ("equals".data))
    path := some (.str ("items[0].id".data)), matcher := none
    expected := some (.num 5), description := none }

/-- A header-contains assertion whose expected value is a number, so that
evaluating it raises a `TypeError` inside `_assert_header`. -/
def headerBadAssertion : Assertion :=
  { type := some (.str ("header".data)), path := some (.str ("x-h".data))
    matcher := some (.str ("contains".data)), expected := some (.num 5)
    description := none }

/-- A response carrying the header x-h. -/
def respWithHeader : Response :=
  { status_code := 200, headers := [("x-h".data, "v".data)]
    jsonBody := none, text := "t".data, url := "u".data }

/-- An auth config whose type tag is not one of the four known tags. -/
def authCfgUnknown : AuthConfig :=
  { type := some ("custom".data), token := some ("tok".data)
    key_name := none, key_value := none, username := none, password := none
    client_id := none, client_secret := none, token_url := none, extra := none }

/-- A minimal test spec with no assertions. -/
def specW : TestSpecBase :=
  { name := "w".data, method := "GET".data, path := "/x".data
    headers := none, query_params := none, path_variables := none
    body := none, assertions := [] }

/-- An executor with no auth config. -/
def exW : TestExecutor := TestExecutor.init ("http://b".data) none

/-- Specification-side observer: any of the argument-consuming flags. -/
def isArgFlagTok (t : List Char) : Bool :=
  isReqFlagTok t || isHeaderFlagTok t || isDataFlagTok t || isFormFlagTok t

/-- Specification-side observer: no token of the list spells an
`-X` / `--request` flag (after quote stripping). -/
def noReqFlagTok (toks : List (List Char)) : Bool :=
  toks.all (fun t => !isReqFlagTok (stripQuotes t))

/-- Specification-side observer: some body-data flag occurs in flag
position (not consumed as another flag's argument) with an argument
following it. -/
def hasDataFlagPos : List (List Char) → Bool
  | [] => false
  | t :: rest =>
    if isArgFlagTok (stripQuotes t) then
      match rest with
      | [] => false
      | _ :: rest' => isDataFlagTok (stripQuotes t) || hasDataFlagPos rest'
    else hasDataFlagPos rest

/-- Specification-side observer: the (stripped) argument of the last
`-X` / `--request` flag occurring in flag position, if any. -/
def lastReqArg : List (List Char) → Option (List Char)
  | [] => none
  | t :: rest =>
    if isArgFlagTok (stripQuotes t) then
      match rest with
      | [] => none
      | a :: rest' =>
        if isReqFlagTok (stripQuotes t) then
          match lastReqArg rest' with
          | some m => some m
          | none => some (stripQuotes a)
        else lastReqArg rest'
    else lastReqArg rest

/-- C1: the spec states that an `exists` assertion passes exactly when
the path resolves (scenario D: path user.email over a body whose email is
null must pass).  The engine has no `exists` branch at all: the scenario D
assertion falls through to the unknown-type record with `passed = false`
and an unknown-type message, so the claim fails on the code. -/
theorem c1_exists_reported_unknown :
    (runSingleAssertion extTriv existsAssertionD respScenarioD).map
      AssertionResult.passed = .ok false ∧
    (runSingleAssertion extTriv existsAssertionD respScenarioD).map
      AssertionResult.message =
      .ok ("Unknown assertion type: exists".data) :=
  ⟨rfl, rfl⟩

/-- C2: `curl_to_test_spec` does seed every converted spec with the
default `response_time` assertion (first conjunct), but the engine does
not recognize the type: evaluating that very seeded assertion yields
`passed = false` with an unknown-type message regardless of the measured
time, so the claim fails on the code. -/
theorem c2_response_time_reported_unknown :
    (curlToTestSpec extTriv.jsonParsable
        ("curl https://api.example.com/users".data) none).map
      (fun ts => ts.assertions.any
        (fun a => pyEq a.getType (.str ("response_time".data)))) = .ok true ∧
    (runSingleAssertion extTriv responseTimeSeed respScenarioD).map
      AssertionResult.passed = .ok false ∧
    (runSingleAssertion extTriv responseTimeSeed respScenarioD).map
      AssertionResult.message =
      .ok ("Unknown assertion type: response_time".data) :=
  ⟨rfl, rfl, rfl⟩

/-- C4: the path walker never parses bracket accessors.  The token
items[1] is treated as a literal dict key, so the bracketed path of the
claim resolves to Python `None` instead of the value 5; the bracket-free
spelling items.1.id does resolve to 5; a[5] yields `None` (as a missing
key, not as an out-of-bounds index); and a genuinely out-of-bounds index
in the supported digit-segment grammar, a.5, raises a wrapped
`IndexError` instead of reporting not-found.  The claim's path grammar
and out-of-bounds behaviour both fail on the code. -/
theorem c4_bracket_paths_unsupported :
    extractJsonPath itemsBody (.str ("items[1].id".data)) = .ok .null ∧
    extractJsonPath itemsBody (.str ("items.1.id".data)) = .ok (.num 5) ∧
    extractJsonPath aBody (.str ("a[5]".data)) = .ok .null ∧
    extractJsonPath aBody (.str ("a.5".data)) =
      .error ("Failed to extract path a.5: list index out of range".data) :=
  ⟨rfl, rfl, rfl, rfl⟩

/-- C5: `_assert_equals` performs a strict comparison of the value at the
resolved path and carries no array-order tolerance parameter at all.  On
scenario E the path items[0].id resolves to `None` (brackets are not
parsed), so the assertion fails with message Expected 5, got None — there
is no position-mismatch warning and no toggle, under any configuration,
so the claim fails on the code. -/
theorem c5_no_array_order_tolerance :
    (runSingleAssertion extTriv eqAssertionE respScenarioE).map
      AssertionResult.passed = .ok false ∧
    (assertEquals eqAssertionE respScenarioE).passed = false ∧
    (assertEquals eqAssertionE respScenarioE).actual = .null ∧
    (assertEquals eqAssertionE respScenarioE).message =
      "Expected 5, got None".data :=
  ⟨rfl, rfl, rfl, rfl⟩

/-- C9: for every command (and any custom assertions), the path of the
spec produced by `curl_to_test_spec` is the path component yielded by
urlparse on the URL of the `parse_curl_command` result — and both sides
fail on exactly the same commands, the (unreachable) re-parse error
included. -/
theorem c9_path_roundtrip (jp : List Char → Bool) (cmd : List Char)
    (ca : Option (List Assertion)) :
    (curlToTestSpec jp cmd ca).map TestSpecBase.path =
      (parseCurlCommand jp cmd).bind
        (fun r => (urlparsePy r.url).map UrlParts.path) := by
  unfold curlToTestSpec
  cases h : parseCurlCommand jp cmd with
  | error e => simp [Except.map, Except.bind]
  | ok cr =>
    cases hu : urlparsePy cr.url <;> simp [Except.map, Except.bind, hu]

/-- C10: with no auth config at all, or with a config whose lower-cased
type tag is none of bearer, api_key, basic, oauth2 (absent and empty tags
included), `_apply_authentication` returns the header and query maps
unchanged. -/
theorem c10_auth_unknown_type_frame (ext : Ext) (ex : TestExecutor)
    (headers params : List (List Char × List Char))
    (h : ∀ cfg, ex.auth_config = some cfg →
      lowerList (cfg.type.getD []) ≠ "bearer".data ∧
      lowerList (cfg.type.getD []) ≠ "api_key".data ∧
      lowerList (cfg.type.getD []) ≠ "basic".data ∧
      lowerList (cfg.type.getD []) ≠ "oauth2".data) :
    applyAuthentication ext ex headers params = (headers, params) := by
  unfold applyAuthentication
  cases hc : ex.auth_config with
  | none => rfl
  | some cfg =>
    obtain ⟨h1, h2, h3, h4⟩ := h cfg hc
    simp only [beq_iff_eq]
    rw [if_neg h1, if_neg h2, if_neg h3, if_neg h4]

/-- Witness for C10: a config with type tag custom (and a token present)
changes nothing on a nonempty header map. -/
theorem c10_auth_unknown_type_frame_witness :
    applyAuthentication extTriv ⟨"http://b".data, some authCfgUnknown⟩
      [("k".data, "v".data)] [] = ([("k".data, "v".data)], []) :=
  c10_auth_unknown_type_frame extTriv _ _ _
    (fun cfg hc => by
      rw [Option.some.injEq] at hc
      subst hc
      exact ⟨by decide, by decide, by decide, by decide⟩)

/-- C3: when the request phase raises, the result is failed with the
error text and an empty assertion list; when a response is obtained, the
error message is null (even if assertions fail), the assertion results
are exactly those of the evaluator, and the status is passed exactly when
every assertion result passed. -/
theorem c3_execute_test_contract (ext : Ext) (ex : TestExecutor)
    (spec : TestSpecBase) :
    (∀ e, attemptRequest ext ex spec = .error e →
      (executeTest ext ex spec).status = "failed".data ∧
      (executeTest ext ex spec).error_message = some e ∧
      (executeTest ext ex spec).assertion_results = []) ∧
    (∀ resp, attemptRequest ext ex spec = .ok resp →
      (executeTest ext ex spec).error_message = none ∧
      (executeTest ext ex spec).assertion_results =
        runAssertions ext spec.assertions resp ∧
      ((executeTest ext ex spec).status = "passed".data ↔
        ∀ ar ∈ (executeTest ext ex spec).assertion_results,
          ar.passed = true)) := by
  constructor
  · intro e h
    unfold executeTest
    rw [h]
    exact ⟨rfl, rfl, rfl⟩
  · intro resp h
    unfold executeTest
    rw [h]
    refine ⟨rfl, rfl, ?_⟩
    by_cases hall :
        (runAssertions ext spec.assertions resp).all (fun ar => ar.passed)
    · simpa [hall] using (List.all_eq_true.mp hall)
    · have hne : ("failed".data : List Char) ≠ "passed".data := by decide
      simp only [hall, if_neg, Bool.false_eq_true, if_false]
      simp only [List.all_eq_true] at hall
      simpa [hne] using hall

/-- Witness for C3: the failing-transport oracle yields a failed result
with the connection-error message and no assertion results, and the
successful-transport oracle yields a null error message and passed status
on an assertion-free spec. -/
theorem c3_execute_test_contract_witness :
    ((executeTest extTriv exW specW).status = "failed".data ∧
     (executeTest extTriv exW specW).error_message =
       some ("connection error".data) ∧
     (executeTest extTriv exW specW).assertion_results = []) ∧
    ((executeTest extOkResp exW specW).error_message = none ∧
     (executeTest extOkResp exW specW).status = "passed".data) := by
  constructor
  · exact (c3_execute_test_contract extTriv exW specW).1 _ rfl
  · obtain ⟨h1, h2, h3⟩ :=
      (c3_execute_test_contract extOkResp exW specW).2 respScenarioD rfl
    refine ⟨h1, h3.mpr ?_⟩
    rw [h2]
    intro ar har
    simp [specW, runAssertions] at har

/-- C7: assertion evaluation is total and order-preserving — the result
list has one entry per assertion, the entry at each index is the
evaluation of the assertion at that index, and whenever evaluating one
assertion raises, its entry is the converted failure record (passed
false, message carrying the error text) while every other entry is
unaffected. -/
theorem c7_run_assertions_total (ext : Ext) (assertions : List Assertion)
    (r : Response) :
    (runAssertions ext assertions r).length = assertions.length ∧
    (∀ i, (runAssertions ext assertions r).get? i =
      (assertions.get? i).map (fun a =>
        match runSingleAssertion ext a r with
        | .ok res => res
        | .error e => assertionErrorRecord a e)) ∧
    (∀ i a e, assertions.get? i = some a →
      runSingleAssertion ext a r = .error e →
      (runAssertions ext assertions r).get? i =
        some (assertionErrorRecord a e) ∧
      (assertionErrorRecord a e).passed = false ∧
      (assertionErrorRecord a e).message =
        "Assertion execution failed: ".data ++ e) := by
  have hmap : ∀ i, (runAssertions ext assertions r).get? i =
      (assertions.get? i).map (fun a =>
        match runSingleAssertion ext a r with
        | .ok res => res
        | .error e => assertionErrorRecord a e) := by
    intro i
    simp [runAssertions, List.get?_eq_getElem?, List.getElem?_map]
  refine ⟨List.length_map _ _, hmap, fun i a e ha he => ⟨?_, rfl, rfl⟩⟩
  rw [hmap i, ha]
  simp [he]

/-- Witness for C7: a header assertion whose contains matcher receives a
numeric expected value raises a `TypeError`; the evaluator converts it
into a failed record at index 0 of a one-element result list. -/
theorem c7_run_assertions_total_witness :
    (runAssertions extTriv [headerBadAssertion] respWithHeader).length = 1 ∧
    (runAssertions extTriv [headerBadAssertion] respWithHeader).get? 0 =
      some (assertionErrorRecord headerBadAssertion typeErrInStr) ∧
    (assertionErrorRecord headerBadAssertion typeErrInStr).passed = false := by
  obtain ⟨hl, -, h3⟩ :=
    c7_run_assertions_total extTriv [headerBadAssertion] respWithHeader
  obtain ⟨g1, g2, -⟩ := h3 0 headerBadAssertion typeErrInStr rfl rfl
  exact ⟨hl, g1, g2⟩

/-- C8 (amended): parsing fails exactly when the command is empty or
whitespace-only, or the normalized command tokenizes to no tokens or to a
first token that differs from curl case-insensitively (the code lowercases
before comparing, so the literal-token condition of the claim is too
strict), or the token walk finds no URL token, or urlparse rejects the URL
token (its netloc carries an unmatched square bracket — the wrapped
`ValueError("Invalid IPv6 URL")`).  `Except` carries no partial record in
the failing cases. -/
theorem c8_parse_error_iff (jp : List Char → Bool) (cmd : List Char) :
    (∃ e, parseCurlCommand jp cmd = .error e) ↔
      ((pyStripWs cmd).isEmpty = true ∨
       (∀ t0 rest, tokenizeCmd (normalizeCmd cmd) = t0 :: rest →
         lowerList t0 ≠ "curl".data) ∨
       (walkTokens (cmdTokens cmd) initWalkState).url = [] ∨
       (∃ e, urlparsePy (walkTokens (cmdTokens cmd) initWalkState).url =
         .error e)) := by
  by_cases h1 : (pyStripWs cmd).isEmpty
  · refine ⟨fun _ => Or.inl h1, fun _ => ⟨"Curl command cannot be empty".data, ?_⟩⟩
    unfold parseCurlCommand
    simp [h1]
  · rcases h2 : tokenizeCmd (normalizeCmd cmd) with - | ⟨t0, rest⟩
    · constructor
      · intro _
        exact Or.inr (Or.inl (fun t0 rest hh => List.noConfusion hh))
      · intro _
        refine ⟨"Invalid curl command: ".data ++ mustStartMsg, ?_⟩
        unfold parseCurlCommand manualParseCurl
        simp [h1, h2]
    · have hrest : cmdTokens cmd = rest := by simp [cmdTokens, h2]
      by_cases h3 : lowerList t0 = "curl".data
      · by_cases h4 : (walkTokens rest initWalkState).url.isEmpty
        · constructor
          · intro _
            refine Or.inr (Or.inr (Or.inl ?_))
            rw [hrest]
            exact List.isEmpty_iff.mp h4
          · intro _
            refine ⟨"Invalid curl command: ".data ++
              "No URL found in curl command".data, ?_⟩
            unfold parseCurlCommand manualParseCurl
            simp [h1, h2, h3, h4]
        · rcases h5 : urlparsePy (walkTokens rest initWalkState).url with e0 | pu
          · constructor
            · intro _
              refine Or.inr (Or.inr (Or.inr ⟨e0, ?_⟩))
              rw [hrest]
              exact h5
            · intro _
              refine ⟨"Invalid curl command: ".data ++ e0, ?_⟩
              unfold parseCurlCommand manualParseCurl
              simp [h1, h2, h3, h4, h5]
          · constructor
            · rintro ⟨e, he⟩
              unfold parseCurlCommand manualParseCurl at he
              simp [h1, h2, h3, h4, h5] at he
            · rintro (h | h | h | h)
              · exact absurd h h1
              · exact absurd h3 (h t0 rest rfl)
              · rw [hrest] at h
                rw [h] at h4
                exact absurd rfl h4
              · rw [hrest] at h
                obtain ⟨e, he⟩ := h
                rw [h5] at he
                cases he
      · constructor
        · intro _
          refine Or.inr (Or.inl ?_)
          intro t0' rest' hh
          cases hh
          exact h3
        · intro _
          refine ⟨"Invalid curl command: ".data ++ mustStartMsg, ?_⟩
          unfold parseCurlCommand manualParseCurl
          simp [h1, h2, h3]

/-- Header handling never touches the method. -/
theorem applyHeaderTok_method (st : WalkState) (h : List Char) :
    (applyHeaderTok st h).method = st.method := by
  unfold applyHeaderTok
  rcases splitFirst ':' h with - | p <;> rfl

/-- Form handling either keeps the method or upgrades an exact GET. -/
theorem applyFormTok_method (st : WalkState) (f : List Char) :
    (applyFormTok st f).method = st.method ∨
      (st.method = "GET".data ∧ (applyFormTok st f).method = "POST".data) := by
  unfold applyFormTok
  rcases splitFirst '=' f with - | p
  · exact Or.inl rfl
  · by_cases hG : st.method = "GET".data
    · exact Or.inr ⟨hG, by simp [hG]⟩
    · exact Or.inl (by simp [hG])

/-- A header-flag token is not a data-flag token. -/
theorem isData_of_header (t : List Char) (h : isHeaderFlagTok t = true) :
    isDataFlagTok t = false := by
  rcases (by simpa [isHeaderFlagTok, beq_iff_eq] using h :
    t = "-H".data ∨ t = "--header".data) with h' | h' <;> subst h' <;> decide

/-- A form-flag token is not a data-flag token. -/
theorem isData_of_form (t : List Char) (h : isFormFlagTok t = true) :
    isDataFlagTok t = false := by
  rcases (by simpa [isFormFlagTok, beq_iff_eq] using h :
    t = "--form".data ∨ t = "-F".data) with h' | h' <;> subst h' <;> decide

/-- Once the walked method is POST and no `-X` / `--request` token occurs,
it stays POST. -/
theorem walk_post_stays : ∀ toks st, noReqFlagTok toks = true →
    st.method = "POST".data → (walkTokens toks st).method = "POST".data := by
  intro toks st
  induction toks, st using walkTokens.induct with
  | case1 st =>
    intro _ hm
    simpa [walkTokens] using hm
  | case2 t st tok hreq =>
    intro hno _
    simp [noReqFlagTok, hreq] at hno
  | case3 t st tok hreq a ts ih =>
    intro hno _
    simp [noReqFlagTok, hreq] at hno
  | case4 t st tok hnreq hhdr =>
    intro _ hm
    simpa [walkTokens, hnreq, hhdr] using hm
  | case5 t st tok hnreq hhdr a ts ih =>
    intro hno hm
    simp only [noReqFlagTok, List.all_cons, Bool.and_eq_true] at hno
    simp only [walkTokens, hnreq, hhdr, if_neg, if_pos, if_true, if_false]
    exact ih hno.2.2 (by rw [applyHeaderTok_method]; exact hm)
  | case6 t st tok hnreq hnhdr hdata =>
    intro _ hm
    simpa [walkTokens, hnreq, hnhdr, hdata] using hm
  | case7 t st tok hnreq hnhdr hdata a ts ih =>
    intro hno hm
    simp only [noReqFlagTok, List.all_cons, Bool.and_eq_true] at hno
    simp only [walkTokens, hnreq, hnhdr, hdata, if_neg, if_pos, if_true, if_false]
    exact ih hno.2.2 (by simp [applyDataTok, hm])
  | case8 t st tok hnreq hnhdr hndata hform =>
    intro _ hm
    simpa [walkTokens, hnreq, hnhdr, hndata, hform] using hm
  | case9 t st tok hnreq hnhdr hndata hform a ts ih =>
    intro hno hm
    simp only [noReqFlagTok, List.all_cons, Bool.and_eq_true] at hno
    simp only [walkTokens, hnreq, hnhdr, hndata, hform, if_neg, if_pos,
      if_true, if_false]
    refine ih hno.2.2 ?_
    rcases applyFormTok_method st (stripQuotes a) with h | h
    · rw [h]; exact hm
    · rw [hm] at h; exact absurd h.1 (by decide)
  | case10 t rest st tok hnreq hnhdr hndata hnform hloc ih =>
    intro hno hm
    simp only [noReqFlagTok, List.all_cons, Bool.and_eq_true] at hno
    rw [walkTokens.eq_def]
    simp [hnreq, hnhdr, hndata, hnform, hloc]
    exact ih hno.2 hm
  | case11 t rest st tok hnreq hnhdr hndata hnform hnloc hurl ih =>
    intro hno hm
    simp only [noReqFlagTok, List.all_cons, Bool.and_eq_true] at hno
    rw [walkTokens.eq_def]
    simp [hnreq, hnhdr, hndata, hnform, hnloc, hurl]
    exact ih hno.2 hm
  | case12 t rest st tok hnreq hnhdr hndata hnform hnloc hnurl ih =>
    intro hno hm
    simp only [noReqFlagTok, List.all_cons, Bool.and_eq_true] at hno
    rw [walkTokens.eq_def]
    simp [hnreq, hnhdr, hndata, hnform, hnloc, hnurl]
    exact ih hno.2 hm

/-- With no `-X` / `--request` token anywhere, a data flag processed in
flag position upgrades a GET method to POST. -/
theorem walk_get_data_post : ∀ toks st, noReqFlagTok toks = true →
    hasDataFlagPos toks = true → st.method = "GET".data →
    (walkTokens toks st).method = "POST".data := by
  intro toks st
  induction toks, st using walkTokens.induct with
  | case1 st =>
    intro _ hd _
    simp [hasDataFlagPos] at hd
  | case2 t st tok hreq =>
    intro hno _ _
    simp [noReqFlagTok, hreq] at hno
  | case3 t st tok hreq a ts ih =>
    intro hno _ _
    simp [noReqFlagTok, hreq] at hno
  | case4 t st tok hnreq hhdr =>
    intro _ hd _
    simp [hasDataFlagPos, isArgFlagTok, hhdr] at hd
  | case5 t st tok hnreq hhdr a ts ih =>
    intro hno hd hm
    simp only [noReqFlagTok, List.all_cons, Bool.and_eq_true] at hno
    have hdts : hasDataFlagPos ts = true := by
      have hda : isDataFlagTok tok = false := isData_of_header tok hhdr
      simpa [hasDataFlagPos, isArgFlagTok, hhdr, hda] using hd
    rw [walkTokens.eq_def]
    simp [hnreq, hhdr]
    exact ih hno.2.2 hdts (by rw [applyHeaderTok_method]; exact hm)
  | case6 t st tok hnreq hnhdr hdata =>
    intro _ hd _
    simp [hasDataFlagPos, isArgFlagTok, hdata] at hd
  | case7 t st tok hnreq hnhdr hdata a ts ih =>
    intro hno _ hm
    simp only [noReqFlagTok, List.all_cons, Bool.and_eq_true] at hno
    rw [walkTokens.eq_def]
    simp [hnreq, hnhdr, hdata]
    exact walk_post_stays ts _ hno.2.2 (by simp [applyDataTok, hm])
  | case8 t st tok h1 h2 h3 hform =>
    intro _ hd _
    simp [hasDataFlagPos, isArgFlagTok, hform] at hd
  | case9 t st tok h1 h2 h3 hform a ts ih =>
    intro hno hd hm
    simp only [noReqFlagTok, List.all_cons, Bool.and_eq_true] at hno
    have hdts : hasDataFlagPos ts = true := by
      have hda : isDataFlagTok tok = false := isData_of_form tok hform
      simpa [hasDataFlagPos, isArgFlagTok, hform, hda] using hd
    rw [walkTokens.eq_def]
    simp [h1, h2, h3, hform]
    rcases applyFormTok_method st (stripQuotes a) with h | h
    · exact ih hno.2.2 hdts (h.trans hm)
    · exact walk_post_stays ts _ hno.2.2 h.2
  | case10 t rest st tok h1 h2 h3 h4 hloc ih =>
    intro hno hd hm
    simp only [noReqFlagTok, List.all_cons, Bool.and_eq_true] at hno
    have hna : isArgFlagTok tok = false := by
      simp [isArgFlagTok, h1, h2, h3, h4]
    have hdr : hasDataFlagPos rest = true := by
      rw [hasDataFlagPos.eq_def] at hd
      simpa [hna] using hd
    rw [walkTokens.eq_def]
    simp [h1, h2, h3, h4, hloc]
    exact ih hno.2 hdr hm
  | case11 t rest st tok h1 h2 h3 h4 h5 hurl ih =>
    intro hno hd hm
    simp only [noReqFlagTok, List.all_cons, Bool.and_eq_true] at hno
    have hna : isArgFlagTok tok = false := by
      simp [isArgFlagTok, h1, h2, h3, h4]
    have hdr : hasDataFlagPos rest = true := by
      rw [hasDataFlagPos.eq_def] at hd
      simpa [hna] using hd
    rw [walkTokens.eq_def]
    simp [h1, h2, h3, h4, h5, hurl]
    exact ih hno.2 hdr hm
  | case12 t rest st tok h1 h2 h3 h4 h5 h6 ih =>
    intro hno hd hm
    simp only [noReqFlagTok, List.all_cons, Bool.and_eq_true] at hno
    have hna : isArgFlagTok tok = false := by
      simp [isArgFlagTok, h1, h2, h3, h4]
    have hdr : hasDataFlagPos rest = true := by
      rw [hasDataFlagPos.eq_def] at hd
      simpa [hna] using hd
    rw [walkTokens.eq_def]
    simp [h1, h2, h3, h4, h5, h6]
    exact ih hno.2 hdr hm

/-- With no `-X` / `--request` flag in flag position and a method other
than exactly GET, the walk preserves the method. -/
theorem walk_lastreq_none : ∀ toks st, lastReqArg toks = none →
    st.method ≠ "GET".data → (walkTokens toks st).method = st.method := by
  intro toks st
  induction toks, st using walkTokens.induct with
  | case1 st =>
    intro _ _
    rfl
  | case2 t st tok hreq =>
    intro _ _
    rw [walkTokens.eq_def]
    simp [hreq]
  | case3 t st tok hreq a ts ih =>
    intro hlast _
    exfalso
    rcases hl : lastReqArg ts with - | m <;>
      simp [lastReqArg, isArgFlagTok, hreq, hl] at hlast
  | case4 t st tok hnreq hhdr =>
    intro _ _
    rw [walkTokens.eq_def]
    simp [hnreq, hhdr]
  | case5 t st tok hnreq hhdr a ts ih =>
    intro hlast hm
    have hl : lastReqArg ts = none := by
      simpa [lastReqArg, isArgFlagTok, hnreq, hhdr] using hlast
    rw [walkTokens.eq_def]
    simp [hnreq, hhdr]
    rw [ih hl (by rw [applyHeaderTok_method]; exact hm), applyHeaderTok_method]
  | case6 t st tok hnreq hnhdr hdata =>
    intro _ _
    rw [walkTokens.eq_def]
    simp [hnreq, hnhdr, hdata]
  | case7 t st tok hnreq hnhdr hdata a ts ih =>
    intro hlast hm
    have hl : lastReqArg ts = none := by
      simpa [lastReqArg, isArgFlagTok, hnreq, hdata] using hlast
    have hdm : (applyDataTok st (stripQuotes a)).method = st.method := by
      simp [applyDataTok, beq_eq_false_iff_ne.mpr hm]
    rw [walkTokens.eq_def]
    simp [hnreq, hnhdr, hdata]
    rw [ih hl (by rw [hdm]; exact hm), hdm]
  | case8 t st tok h1 h2 h3 hform =>
    intro _ _
    rw [walkTokens.eq_def]
    simp [h1, h2, h3, hform]
  | case9 t st tok h1 h2 h3 hform a ts ih =>
    intro hlast hm
    have hl : lastReqArg ts = none := by
      simpa [lastReqArg, isArgFlagTok, h1, hform] using hlast
    have hfm : (applyFormTok st (stripQuotes a)).method = st.method := by
      rcases applyFormTok_method st (stripQuotes a) with h | h
      · exact h
      · exact absurd h.1 hm
    rw [walkTokens.eq_def]
    simp [h1, h2, h3, hform]
    rw [ih hl (by rw [hfm]; exact hm), hfm]
  | case10 t rest st tok h1 h2 h3 h4 hloc ih =>
    intro hlast hm
    have hna : isArgFlagTok tok = false := by
      simp [isArgFlagTok, h1, h2, h3, h4]
    have hl : lastReqArg rest = none := by
      rw [lastReqArg.eq_def] at hlast
      simpa [hna] using hlast
    rw [walkTokens.eq_def]
    simp [h1, h2, h3, h4, hloc]
    exact ih hl hm
  | case11 t rest st tok h1 h2 h3 h4 h5 hurl ih =>
    intro hlast hm
    have hna : isArgFlagTok tok = false := by
      simp [isArgFlagTok, h1, h2, h3, h4]
    have hl : lastReqArg rest = none := by
      rw [lastReqArg.eq_def] at hlast
      simpa [hna] using hlast
    rw [walkTokens.eq_def]
    simp [h1, h2, h3, h4, h5, hurl]
    exact ih hl hm
  | case12 t rest st tok h1 h2 h3 h4 h5 h6 ih =>
    intro hlast hm
    have hna : isArgFlagTok tok = false := by
      simp [isArgFlagTok, h1, h2, h3, h4]
    have hl : lastReqArg rest = none := by
      rw [lastReqArg.eq_def] at hlast
      simpa [hna] using hlast
    rw [walkTokens.eq_def]
    simp [h1, h2, h3, h4, h5, h6]
    exact ih hl hm

/-- The stripped argument of the last `-X` / `--request` flag, when it is
not exactly GET, is the final walked method. -/
theorem walk_lastreq_some : ∀ toks st, ∀ m, lastReqArg toks = some m →
    m ≠ "GET".data → (walkTokens toks st).method = m := by
  intro toks st
  induction toks, st using walkTokens.induct with
  | case1 st =>
    intro m hlast _
    simp [lastReqArg] at hlast
  | case2 t st tok hreq =>
    intro m hlast _
    simp [lastReqArg, isArgFlagTok, hreq] at hlast
  | case3 t st tok hreq a ts ih =>
    intro m hlast hne
    rw [walkTokens.eq_def]
    simp [hreq]
    rcases hl : lastReqArg ts with - | m'
    · have hm : stripQuotes a = m := by
        simpa [lastReqArg, isArgFlagTok, hreq, hl] using hlast
      exact (walk_lastreq_none ts _ hl
        (fun hg => hne (hm.symm.trans hg))).trans hm
    · have hm' : m' = m := by
        simpa [lastReqArg, isArgFlagTok, hreq, hl] using hlast
      subst hm'
      exact ih m' hl hne
  | case4 t st tok hnreq hhdr =>
    intro m hlast _
    simp [lastReqArg, isArgFlagTok, hhdr] at hlast
  | case5 t st tok hnreq hhdr a ts ih =>
    intro m hlast hne
    have hl : lastReqArg ts = some m := by
      simpa [lastReqArg, isArgFlagTok, hnreq, hhdr] using hlast
    rw [walkTokens.eq_def]
    simp [hnreq, hhdr]
    exact ih m hl hne
  | case6 t st tok hnreq hnhdr hdata =>
    intro m hlast _
    simp [lastReqArg, isArgFlagTok, hdata] at hlast
  | case7 t st tok hnreq hnhdr hdata a ts ih =>
    intro m hlast hne
    have hl : lastReqArg ts = some m := by
      simpa [lastReqArg, isArgFlagTok, hnreq, hdata] using hlast
    rw [walkTokens.eq_def]
    simp [hnreq, hnhdr, hdata]
    exact ih m hl hne
  | case8 t st tok h1 h2 h3 hform =>
    intro m hlast _
    simp [lastReqArg, isArgFlagTok, hform] at hlast
  | case9 t st tok h1 h2 h3 hform a ts ih =>
    intro m hlast hne
    have hl : lastReqArg ts = some m := by
      simpa [lastReqArg, isArgFlagTok, h1, hform] using hlast
    rw [walkTokens.eq_def]
    simp [h1, h2, h3, hform]
    exact ih m hl hne
  | case10 t rest st tok h1 h2 h3 h4 hloc ih =>
    intro m hlast hne
    have hna : isArgFlagTok tok = false := by
      simp [isArgFlagTok, h1, h2, h3, h4]
    have hl : lastReqArg rest = some m := by
      rw [lastReqArg.eq_def] at hlast
      simpa [hna] using hlast
    rw [walkTokens.eq_def]
    simp [h1, h2, h3, h4, hloc]
    exact ih m hl hne
  | case11 t rest st tok h1 h2 h3 h4 h5 hurl ih =>
    intro m hlast hne
    have hna : isArgFlagTok tok = false := by
      simp [isArgFlagTok, h1, h2, h3, h4]
    have hl : lastReqArg rest = some m := by
      rw [lastReqArg.eq_def] at hlast
      simpa [hna] using hlast
    rw [walkTokens.eq_def]
    simp [h1, h2, h3, h4, h5, hurl]
    exact ih m hl hne
  | case12 t rest st tok h1 h2 h3 h4 h5 h6 ih =>
    intro m hlast hne
    have hna : isArgFlagTok tok = false := by
      simp [isArgFlagTok, h1, h2, h3, h4]
    have hl : lastReqArg rest = some m := by
      rw [lastReqArg.eq_def] at hlast
      simpa [hna] using hlast
    rw [walkTokens.eq_def]
    simp [h1, h2, h3, h4, h5, h6]
    exact ih m hl hne

/-- C6 (amended): for every command that parses, (a) when no token spells
an `-X` / `--request` flag and some data flag occurs in flag position with
an argument, the parsed method is POST; and (b) when the last
`-X` / `--request` flag in flag position sets a method other than exactly
GET, the parsed method is that method upper-cased.  The body flag upgrades
whenever the method currently equals GET — including a GET set explicitly
by an earlier `-X GET` — so only a non-GET explicit method (or one set
after all body flags) is preserved. -/
theorem c6_method_amended (jp : List Char → Bool) (cmd : List Char)
    (hok : ∃ r, parseCurlCommand jp cmd = .ok r) :
    (noReqFlagTok (cmdTokens cmd) = true →
      hasDataFlagPos (cmdTokens cmd) = true →
      (parseCurlCommand jp cmd).map CurlRequest.method =
        .ok ("POST".data)) ∧
    (∀ m, lastReqArg (cmdTokens cmd) = some m → m ≠ "GET".data →
      (parseCurlCommand jp cmd).map CurlRequest.method =
        .ok (upperList m)) := by
  obtain ⟨r, hr⟩ := hok
  by_cases h1 : (pyStripWs cmd).isEmpty
  · unfold parseCurlCommand at hr
    simp [h1] at hr
  · rcases h2 : tokenizeCmd (normalizeCmd cmd) with - | ⟨t0, rest⟩
    · unfold parseCurlCommand manualParseCurl at hr
      simp [h1, h2] at hr
    · have hrest : cmdTokens cmd = rest := by simp [cmdTokens, h2]
      by_cases h3 : lowerList t0 = "curl".data
      · by_cases h4 : (walkTokens rest initWalkState).url.isEmpty
        · unfold parseCurlCommand manualParseCurl at hr
          simp [h1, h2, h3, h4] at hr
        · rcases h5 : urlparsePy (walkTokens rest initWalkState).url with e0 | pu
          · exfalso
            unfold parseCurlCommand manualParseCurl at hr
            simp [h1, h2, h3, h4, h5] at hr
          have hmm : (parseCurlCommand jp cmd).map CurlRequest.method =
              .ok (upperList (walkTokens rest initWalkState).method) := by
            unfold parseCurlCommand manualParseCurl
            simp [h1, h2, h3, h4, h5]
            rfl
          rw [hrest]
          constructor
          · intro hno hd
            rw [hmm, walk_get_data_post rest initWalkState hno hd rfl]
            rfl
          · intro m hlast hne
            rw [hmm, walk_lastreq_some rest initWalkState m hlast hne]
      · unfold parseCurlCommand manualParseCurl at hr
        simp [h1, h2, h3] at hr

/-- Witness for C6: a data flag with no explicit method yields POST, and
an explicit lower-case put followed by a data flag yields PUT. -/
theorem c6_method_amended_witness :
    (parseCurlCommand extTriv.jsonParsable
        ("curl -d x http://e.com".data)).map CurlRequest.method =
      .ok ("POST".data) ∧
    (parseCurlCommand extTriv.jsonParsable
        ("curl -X put http://e.com -d x".data)).map CurlRequest.method =
      .ok ("PUT".data) := by
  constructor
  · exact (c6_method_amended extTriv.jsonParsable
      ("curl -d x http://e.com".data) ⟨_, by rfl⟩).1 (by decide) (by decide)
  · exact (c6_method_amended extTriv.jsonParsable
      ("curl -X put http://e.com -d x".data) ⟨_, by rfl⟩).2
      ("put".data) (by decide) (by decide)

/-- Counterexample for C6: an explicit -X GET followed by a data flag
parses to POST, not the explicitly set GET the claim requires. -/
theorem c6_counterexample :
    (parseCurlCommand extTriv.jsonParsable
        ("curl -X GET http://example.com -d foo".data)).map
      CurlRequest.method = .ok ("POST".data) := rfl

/-- Counterexample for C8: the command CURL http://example.com has first
token CURL, which is not the literal token curl, yet parsing succeeds
(the comparison is case-insensitive), contradicting the claim's only-if
condition. -/
theorem c8_counterexample :
    (tokenizeCmd (normalizeCmd ("CURL http://example.com".data))).head? =
      some ("CURL".data) ∧
    ("CURL".data ≠ "curl".data) ∧
    (parseCurlCommand extTriv.jsonParsable
        ("CURL http://example.com".data)).map CurlRequest.url =
      .ok ("http://example.com".data) :=
  ⟨rfl, by decide, rfl⟩

/-- Witness for C8: the command curl -L carries no URL token, and the
command curl http://[ carries a URL whose netloc has an unmatched
bracket; the iff instantiated at each produces the parse error. -/
theorem c8_parse_error_iff_witness :
    (∃ e, parseCurlCommand extTriv.jsonParsable ("curl -L".data) =
      .error e) ∧
    (∃ e, parseCurlCommand extTriv.jsonParsable ("curl http://[".data) =
      .error e) :=
  ⟨(c8_parse_error_iff extTriv.jsonParsable ("curl -L".data)).mpr
      (Or.inr (Or.inr (Or.inl (by decide)))),
   (c8_parse_error_iff extTriv.jsonParsable ("curl http://[".data)).mpr
      (Or.inr (Or.inr (Or.inr ⟨_, by rfl⟩)))⟩

end PyTF
